import Mathlib

/-!
# Verification of the `Ses` Pulumi component (`src/index.ts`)

Shallow embedding of the `Ses` component of `@codicy/pulumi-aws-ses`.
The constructor of the TypeScript class is modelled as a pure function
`Ses.construct` that returns the full set of resource declarations the
constructor issues.  Values that the provisioning engine supplies only at
run time are explicit parameters of the embedding:

* `stack` — the result of `pulumi.getStack()`;
* `verificationToken` — the asynchronous `verificationToken` output of the
  `aws.ses.DomainIdentity` resource;
* `dkimTokens` — the asynchronous `dkimTokens` output of the
  `aws.ses.DomainDkim` resource.

The `aws.ses.DomainIdentity` resource echoes the `domain` it was given as
its `domain` output, so the output is modelled by the structure field that
holds the declared domain.  `pulumi.interpolate` and JavaScript template
strings are modelled by string concatenation; a Pulumi lifted list index
that falls outside the list resolves to `undefined`, which a template
string renders as the text `"undefined"`, hence `List.getD i "undefined"`.
-/

namespace PulumiAwsSes

/-- Constructor arguments of the component (`SesArgs` in `src/index.ts`).
`dnsZoneId` is an `Input<string>`, modelled as the string it resolves to. -/
structure SesArgs where
  description : String
  baseTags : List (String × String)
  region : String
  baseDomain : String
  dnsZoneId : String
  adminEmailAddress : String
  deriving Repr, DecidableEq

/-- An `aws.iam.User` declaration.  `urn` is the Pulumi resource name (the
first constructor argument); `tagEnvironment` is the `Environment` tag. -/
structure IamUser where
  urn : String
  name : String
  path : String
  tagEnvironment : String
  deriving Repr, DecidableEq

/-- One statement of the IAM policy document that `src/index.ts` serialises
with `JSON.stringify`.  The single condition of the source,
`Condition.StringLike["ses:FromAddress"]`, is the last field. -/
structure PolicyStatement where
  action : List String
  effect : String
  resource : String
  conditionStringLikeSesFromAddress : String
  deriving Repr, DecidableEq

/-- The IAM policy document (`Version` / `Statement` keys of the JSON). -/
structure PolicyDocument where
  version : String
  statement : List PolicyStatement
  deriving Repr, DecidableEq

/-- An `aws.iam.UserPolicy` declaration. -/
structure IamUserPolicy where
  urn : String
  user : String
  policy : PolicyDocument
  deriving Repr, DecidableEq

/-- An `aws.iam.AccessKey` declaration. -/
structure IamAccessKey where
  urn : String
  user : String
  deriving Repr, DecidableEq

/-- An `aws.ses.DomainIdentity` declaration.  Its `domain` output echoes the
declared `domain`, so one field models both. -/
structure SesDomainIdentity where
  urn : String
  domain : String
  deriving Repr, DecidableEq

/-- An `aws.route53.Record` declaration.  The source's `type` field is named
`recordType` because `type` is a reserved word in Lean. -/
structure Route53Record where
  urn : String
  zoneId : String
  name : String
  ttl : Nat
  recordType : String
  records : List String
  deriving Repr, DecidableEq, Inhabited

/-- An `aws.ses.MailFrom` declaration. -/
structure SesMailFrom where
  urn : String
  domain : String
  mailFromDomain : String
  deriving Repr, DecidableEq

/-- An `aws.ses.DomainDkim` declaration. -/
structure SesDomainDkim where
  urn : String
  domain : String
  deriving Repr, DecidableEq

/-- Everything the `Ses` constructor declares, in source order. -/
structure Ses where
  name : String
  description : String
  baseTags : List (String × String)
  emailUser : IamUser
  emailUserPolicy : IamUserPolicy
  emailAccessKey : IamAccessKey
  stackDomainIdentity : SesDomainIdentity
  sesStackVerificationRecord : Route53Record
  stackMailFrom : SesMailFrom
  stackMailFromMXRecord : Route53Record
  stackSPFMXRecord : Route53Record
  stackDomainDKIM : SesDomainDkim
  stackDKIMRecords : List Route53Record
  dmarcRecord : Route53Record
  deriving Repr, DecidableEq

/-- `const dkimRecordCount = 3;` (`src/index.ts` line 174). -/
def dkimRecordCount : Nat := 3

/-- The body of `new Ses(name, args, opts)` (`src/index.ts` lines 33–212),
with the run-time inputs `stack`, `verificationToken` and `dkimTokens`
passed explicitly (see the module comment). -/
def Ses.construct (name : String) (args : SesArgs) (stack : String)
    (verificationToken : String) (dkimTokens : List String) : Ses :=
  -- const resourcePrefix = [args.baseDomain, stack].join("-");
  let resourcePrefix := args.baseDomain ++ "-" ++ stack
  -- const emailUsername = `${resourcePrefix}-email`;
  let emailUsername := resourcePrefix ++ "-email"
  let emailUser : IamUser :=
    { urn := resourcePrefix ++ "-ses"
      name := emailUsername
      path := "/system/"
      tagEnvironment := stack }
  -- stack === "production" ? `*@${args.baseDomain}` : `*@${stack}.${args.baseDomain}`
  let allowedFromAddress :=
    if stack = "production" then "*@" ++ args.baseDomain
    else "*@" ++ stack ++ "." ++ args.baseDomain
  let emailUserPolicy : IamUserPolicy :=
    { urn := resourcePrefix ++ "-ses-policy"
      user := emailUser.name
      policy :=
        { version := "2012-10-17"
          statement :=
            [{ action :=
                 ["ses:SendEmail", "ses:SendTemplatedEmail",
                  "ses:SendRawEmail", "ses:SendBulkTemplatedEmail"]
               effect := "Allow"
               resource := "*"
               conditionStringLikeSesFromAddress := allowedFromAddress }] } }
  let emailAccessKey : IamAccessKey :=
    { urn := resourcePrefix ++ "-ses-access-key"
      user := emailUser.name }
  -- const domain = stack === "production" ? args.baseDomain : `${stack}.${args.baseDomain}`;
  let domain : String :=
    if stack = "production" then args.baseDomain
    else stack ++ "." ++ args.baseDomain
  let stackDomainIdentity : SesDomainIdentity :=
    { urn := resourcePrefix
      domain := domain }
  let sesStackVerificationRecord : Route53Record :=
    { urn := resourcePrefix ++ "-ses-verification"
      zoneId := args.dnsZoneId
      name := "_amazonses." ++ stack
      ttl := 3600
      recordType := "TXT"
      records := [verificationToken] }
  let stackMailFrom : SesMailFrom :=
    { urn := resourcePrefix ++ "-ses-mail-from"
      domain := stackDomainIdentity.domain
      -- pulumi.interpolate`bounce.${stackDomainIdentity.domain}`
      mailFromDomain := "bounce." ++ stackDomainIdentity.domain }
  let stackMailFromMXRecord : Route53Record :=
    { urn := resourcePrefix ++ "-ses-mail-from-mx-record"
      zoneId := args.dnsZoneId
      name := stackMailFrom.mailFromDomain
      ttl := 3600
      recordType := "MX"
      records := ["10 feedback-smtp." ++ args.region ++ ".amazonses.com"] }
  let stackSPFMXRecord : Route53Record :=
    { urn := resourcePrefix ++ "-ses-spf-mx-record"
      zoneId := args.dnsZoneId
      name := stackMailFrom.mailFromDomain
      ttl := 3600
      recordType := "TXT"
      records := ["v=spf1 include:amazonses.com mail -all"] }
  let stackDomainDKIM : SesDomainDkim :=
    { urn := resourcePrefix ++ "-ses-domain-dkim"
      domain := stackDomainIdentity.domain }
  -- for (let i = 0; i < dkimRecordCount; i++) { ... }
  let stackDKIMRecords : List Route53Record :=
    (List.range dkimRecordCount).map fun i =>
      { urn := resourcePrefix ++ "-dkim-record-" ++ toString (i + 1)
               ++ "-of-" ++ toString dkimRecordCount
        zoneId := args.dnsZoneId
        name := dkimTokens.getD i "undefined" ++ "._domainkey." ++ stack
                ++ "." ++ args.baseDomain
        ttl := 3600
        recordType := "CNAME"
        records := [dkimTokens.getD i "undefined" ++ ".dkim.amazonses.com"] }
  let dmarcRecord : Route53Record :=
    { urn := resourcePrefix ++ "-external-dmarc"
      zoneId := args.dnsZoneId
      name := "_dmarc." ++ domain
      ttl := 3600
      recordType := "TXT"
      records := ["v=DMARC1; p=none; rua=mailto:" ++ args.adminEmailAddress ++ "; fo=1;"] }
  { name := name
    description := args.description
    baseTags := args.baseTags
    emailUser := emailUser
    emailUserPolicy := emailUserPolicy
    emailAccessKey := emailAccessKey
    stackDomainIdentity := stackDomainIdentity
    sesStackVerificationRecord := sesStackVerificationRecord
    stackMailFrom := stackMailFrom
    stackMailFromMXRecord := stackMailFromMXRecord
    stackSPFMXRecord := stackSPFMXRecord
    stackDomainDKIM := stackDomainDKIM
    stackDKIMRecords := stackDKIMRecords
    dmarcRecord := dmarcRecord }

/-- All `aws.route53.Record` declarations of one component instance, in
source order: verification, MAIL FROM MX, SPF, the three DKIM records,
DMARC. -/
def Ses.allRecords (s : Ses) : List Route53Record :=
  [s.sesStackVerificationRecord, s.stackMailFromMXRecord, s.stackSPFMXRecord]
    ++ s.stackDKIMRecords ++ [s.dmarcRecord]

/-- Concrete arguments used by witnesses and counterexamples, matching the
end-to-end scenario of the spec (§8). -/
def argsEx : SesArgs :=
  { description := "ses"
    baseTags := []
    region := "us-east-1"
    baseDomain := "example.com"
    dnsZoneId := "Z123"
    adminEmailAddress := "admin@example.com" }

/-! ## String helper lemmas -/

theorem strAppend_right_cancel {a b s : String} (h : a ++ s = b ++ s) : a = b := by
  have h2 := congrArg String.data h
  simp only [String.data_append] at h2
  exact String.ext (List.append_cancel_right h2)

theorem strAppend_left_cancel {p a b : String} (h : p ++ a = p ++ b) : a = b := by
  have h2 := congrArg String.data h
  simp only [String.data_append] at h2
  exact String.ext (List.append_cancel_left h2)

theorem strAppend_right_ne (s : String) {a b : String} (h : a ≠ b) : a ++ s ≠ b ++ s :=
  fun he => h (strAppend_right_cancel he)

theorem strAppend_left_ne (p : String) {a b : String} (h : a ≠ b) : p ++ a ≠ p ++ b :=
  fun he => h (strAppend_left_cancel he)

/-- `<env>.<base>` is never the bare base domain: it is one dot longer. -/
theorem envDomain_ne_base (base s : String) : s ++ "." ++ base ≠ base := by
  intro he
  have hl := congrArg String.length he
  simp only [String.length_append] at hl
  have hdot : ("." : String).length = 1 := rfl
  omega

/-- Distinct environment names give distinct `<env>.<base>` domains. -/
theorem envDomain_inj {base s1 s2 : String} (h : s1 ≠ s2) :
    s1 ++ "." ++ base ≠ s2 ++ "." ++ base :=
  fun he => h (strAppend_right_cancel (strAppend_right_cancel he))

/-- Distinct environment names give distinct resolved send domains. -/
theorem sendDomain_ne {base s1 s2 : String} (h : s1 ≠ s2) :
    (if s1 = "production" then base else s1 ++ "." ++ base)
      ≠ (if s2 = "production" then base else s2 ++ "." ++ base) := by
  by_cases h1 : s1 = "production" <;> by_cases h2 : s2 = "production"
  · exact absurd (h1.trans h2.symm) h
  · simp only [if_pos h1, if_neg h2]
    exact fun he => envDomain_ne_base base s2 he.symm
  · simp only [if_neg h1, if_pos h2]
    exact envDomain_ne_base base s1
  · simp only [if_neg h1, if_neg h2]
    exact envDomain_inj h

/-! ## Claims -/

/-- C1: the domain given to the `aws.ses.DomainIdentity` resource is the base
domain when the stack is `"production"`, and `<stack>.<base domain>` for every
other stack name. -/
theorem c1_send_domain (name : String) (args : SesArgs) (stack vt : String)
    (toks : List String) :
    (stack = "production" →
      (Ses.construct name args stack vt toks).stackDomainIdentity.domain
        = args.baseDomain)
    ∧ (stack ≠ "production" →
      (Ses.construct name args stack vt toks).stackDomainIdentity.domain
        = stack ++ "." ++ args.baseDomain) := by
  constructor <;> intro h <;> simp [Ses.construct, h]

theorem c1_send_domain_witness :
    (Ses.construct "email" argsEx "production" "vtok" ["tokA", "tokB", "tokC"]).stackDomainIdentity.domain
      = argsEx.baseDomain :=
  (c1_send_domain "email" argsEx "production" "vtok" ["tokA", "tokB", "tokC"]).1 (by decide)

/-- C2: the `ses:FromAddress` `StringLike` condition of the user policy's
single statement is `*@<base domain>` when the stack is `"production"`, and
`*@<stack>.<base domain>` for every other stack name. -/
theorem c2_allowed_sender (name : String) (args : SesArgs) (stack vt : String)
    (toks : List String) :
    (stack = "production" →
      (Ses.construct name args stack vt toks).emailUserPolicy.policy.statement.map
          (fun st => st.conditionStringLikeSesFromAddress)
        = ["*@" ++ args.baseDomain])
    ∧ (stack ≠ "production" →
      (Ses.construct name args stack vt toks).emailUserPolicy.policy.statement.map
          (fun st => st.conditionStringLikeSesFromAddress)
        = ["*@" ++ stack ++ "." ++ args.baseDomain]) := by
  constructor <;> intro h <;> simp [Ses.construct, h]

theorem c2_allowed_sender_witness :
    (Ses.construct "email" argsEx "staging" "vtok" ["tokA", "tokB", "tokC"]).emailUserPolicy.policy.statement.map
        (fun st => st.conditionStringLikeSesFromAddress)
      = ["*@" ++ "staging" ++ "." ++ argsEx.baseDomain] :=
  (c2_allowed_sender "email" argsEx "staging" "vtok" ["tokA", "tokB", "tokC"]).2 (by decide)

/-- C3 fails as stated: with stack `"production"` the Domain Identity's domain
is `example.com`, yet the DKIM record names put `production.example.com` after
`._domainkey.` — the signing records recompute the domain from the stack name
and base domain instead of deriving it from the identity. -/
theorem c3_counterexample :
    (Ses.construct "email" argsEx "production" "vtok" ["tokA", "tokB", "tokC"]).stackDomainIdentity.domain
      = "example.com"
    ∧ (Ses.construct "email" argsEx "production" "vtok" ["tokA", "tokB", "tokC"]).stackDKIMRecords.map
        (fun r => r.name)
      = ["tokA._domainkey.production.example.com",
         "tokB._domainkey.production.example.com",
         "tokC._domainkey.production.example.com"]
    ∧ ("tokA._domainkey.production.example.com" : String)
      ≠ "tokA" ++ "._domainkey."
        ++ (Ses.construct "email" argsEx "production" "vtok" ["tokA", "tokB", "tokC"]).stackDomainIdentity.domain := by
  decide

/-- C3 (amended): the return-path MX and SPF record names are
`bounce.<identity domain>` and the DMARC record name is
`_dmarc.<identity domain>`, all derived from the Domain Identity's domain;
but the verification record name `_amazonses.<stack>` has no domain part, and
the DKIM record names append `<stack>.<base domain>` computed independently of
the identity — which coincides with the identity's domain only when the stack
is not `"production"`. -/
theorem c3_domain_derivation (name : String) (args : SesArgs) (stack vt : String)
    (toks : List String) :
    (Ses.construct name args stack vt toks).stackMailFromMXRecord.name
      = "bounce." ++ (Ses.construct name args stack vt toks).stackDomainIdentity.domain
    ∧ (Ses.construct name args stack vt toks).stackSPFMXRecord.name
      = "bounce." ++ (Ses.construct name args stack vt toks).stackDomainIdentity.domain
    ∧ (Ses.construct name args stack vt toks).dmarcRecord.name
      = "_dmarc." ++ (Ses.construct name args stack vt toks).stackDomainIdentity.domain
    ∧ (Ses.construct name args stack vt toks).sesStackVerificationRecord.name
      = "_amazonses." ++ stack
    ∧ (stack ≠ "production" →
        (Ses.construct name args stack vt toks).stackDKIMRecords.map (fun r => r.name)
          = (List.range dkimRecordCount).map
              (fun i => toks.getD i "undefined" ++ "._domainkey."
                ++ (Ses.construct name args stack vt toks).stackDomainIdentity.domain)) := by
  refine ⟨rfl, rfl, rfl, rfl, fun h => ?_⟩
  simp [Ses.construct, h, String.append_assoc, dkimRecordCount]

theorem c3_domain_derivation_witness :
    (Ses.construct "email" argsEx "staging" "vtok" ["tokA", "tokB", "tokC"]).stackDKIMRecords.map
        (fun r => r.name)
      = (List.range dkimRecordCount).map
          (fun i => ["tokA", "tokB", "tokC"].getD i "undefined" ++ "._domainkey."
            ++ (Ses.construct "email" argsEx "staging" "vtok" ["tokA", "tokB", "tokC"]).stackDomainIdentity.domain) :=
  (c3_domain_derivation "email" argsEx "staging" "vtok" ["tokA", "tokB", "tokC"]).2.2.2.2
    (by decide)

/-- C4 fails as stated: the constructor contains no validation at all, so an
empty base domain or an empty stack name is accepted and the full set of DNS
records is still declared. -/
theorem c4_counterexample :
    (Ses.construct "email" { argsEx with baseDomain := "" } "staging" "vtok"
        ["tokA", "tokB", "tokC"]).allRecords ≠ []
    ∧ (Ses.construct "email" argsEx "" "vtok" ["tokA", "tokB", "tokC"]).allRecords ≠ [] := by
  decide

/-- C4 (amended): the constructor performs no input validation: for every
input — including an empty base domain or an empty stack name — it declares
its full, fixed set of seven DNS records, with degenerate derived names; no
synchronous rejection exists. -/
theorem c4_no_validation (name : String) (args : SesArgs) (stack vt : String)
    (toks : List String) :
    (Ses.construct name args stack vt toks).allRecords.length = 7 := rfl

/-- C5: the DKIM fan-out is the constant `dkimRecordCount = 3` whatever token
list the provider returns, and for a token list `[t0, t1, t2]` of pairwise
distinct tokens the record at position `i` has name
`<token_i>._domainkey.<stack>.<base domain>` and value
`<token_i>.dkim.amazonses.com`, the three names being pairwise distinct and
the three values being pairwise distinct. -/
theorem c5_dkim_records (name : String) (args : SesArgs) (stack vt : String)
    (toksAny : List String) (t0 t1 t2 : String)
    (h01 : t0 ≠ t1) (h02 : t0 ≠ t2) (h12 : t1 ≠ t2) :
    (Ses.construct name args stack vt toksAny).stackDKIMRecords.length = 3
    ∧ (Ses.construct name args stack vt [t0, t1, t2]).stackDKIMRecords.map (fun r => r.name)
        = [t0 ++ "._domainkey." ++ stack ++ "." ++ args.baseDomain,
           t1 ++ "._domainkey." ++ stack ++ "." ++ args.baseDomain,
           t2 ++ "._domainkey." ++ stack ++ "." ++ args.baseDomain]
    ∧ (Ses.construct name args stack vt [t0, t1, t2]).stackDKIMRecords.map (fun r => r.records)
        = [[t0 ++ ".dkim.amazonses.com"],
           [t1 ++ ".dkim.amazonses.com"],
           [t2 ++ ".dkim.amazonses.com"]]
    ∧ (t0 ++ "._domainkey." ++ stack ++ "." ++ args.baseDomain
         ≠ t1 ++ "._domainkey." ++ stack ++ "." ++ args.baseDomain
       ∧ t0 ++ "._domainkey." ++ stack ++ "." ++ args.baseDomain
         ≠ t2 ++ "._domainkey." ++ stack ++ "." ++ args.baseDomain
       ∧ t1 ++ "._domainkey." ++ stack ++ "." ++ args.baseDomain
         ≠ t2 ++ "._domainkey." ++ stack ++ "." ++ args.baseDomain)
    ∧ (t0 ++ ".dkim.amazonses.com" ≠ t1 ++ ".dkim.amazonses.com"
       ∧ t0 ++ ".dkim.amazonses.com" ≠ t2 ++ ".dkim.amazonses.com"
       ∧ t1 ++ ".dkim.amazonses.com" ≠ t2 ++ ".dkim.amazonses.com") := by
  refine ⟨rfl, rfl, rfl, ⟨?_, ?_, ?_⟩, ⟨?_, ?_, ?_⟩⟩
  · simp only [String.append_assoc]; exact strAppend_right_ne _ h01
  · simp only [String.append_assoc]; exact strAppend_right_ne _ h02
  · simp only [String.append_assoc]; exact strAppend_right_ne _ h12
  · exact strAppend_right_ne _ h01
  · exact strAppend_right_ne _ h02
  · exact strAppend_right_ne _ h12

theorem c5_dkim_records_witness :
    (Ses.construct "email" argsEx "staging" "vtok" ["onlyOne"]).stackDKIMRecords.length = 3
    ∧ (Ses.construct "email" argsEx "staging" "vtok" ["tokA", "tokB", "tokC"]).stackDKIMRecords.map
          (fun r => r.name)
        = ["tokA" ++ "._domainkey." ++ "staging" ++ "." ++ argsEx.baseDomain,
           "tokB" ++ "._domainkey." ++ "staging" ++ "." ++ argsEx.baseDomain,
           "tokC" ++ "._domainkey." ++ "staging" ++ "." ++ argsEx.baseDomain]
    ∧ (Ses.construct "email" argsEx "staging" "vtok" ["tokA", "tokB", "tokC"]).stackDKIMRecords.map
          (fun r => r.records)
        = [["tokA" ++ ".dkim.amazonses.com"],
           ["tokB" ++ ".dkim.amazonses.com"],
           ["tokC" ++ ".dkim.amazonses.com"]]
    ∧ ("tokA" ++ "._domainkey." ++ "staging" ++ "." ++ argsEx.baseDomain
         ≠ "tokB" ++ "._domainkey." ++ "staging" ++ "." ++ argsEx.baseDomain
       ∧ "tokA" ++ "._domainkey." ++ "staging" ++ "." ++ argsEx.baseDomain
         ≠ "tokC" ++ "._domainkey." ++ "staging" ++ "." ++ argsEx.baseDomain
       ∧ "tokB" ++ "._domainkey." ++ "staging" ++ "." ++ argsEx.baseDomain
         ≠ "tokC" ++ "._domainkey." ++ "staging" ++ "." ++ argsEx.baseDomain)
    ∧ ("tokA" ++ ".dkim.amazonses.com" ≠ "tokB" ++ ".dkim.amazonses.com"
       ∧ "tokA" ++ ".dkim.amazonses.com" ≠ "tokC" ++ ".dkim.amazonses.com"
       ∧ "tokB" ++ ".dkim.amazonses.com" ≠ "tokC" ++ ".dkim.amazonses.com") :=
  c5_dkim_records "email" argsEx "staging" "vtok" ["onlyOne"] "tokA" "tokB" "tokC"
    (by decide) (by decide) (by decide)

/-- Prepending `bounce.` always changes a string: the result is 7 longer. -/
theorem bounce_ne (d : String) : "bounce." ++ d ≠ d := by
  intro he
  have hl := congrArg String.length he
  simp only [String.length_append] at hl
  have hb : ("bounce." : String).length = 7 := rfl
  omega

/-- Distinct stack names give distinct allowed-sender patterns. -/
theorem allowedFrom_ne {base s1 s2 : String} (h : s1 ≠ s2) :
    (if s1 = "production" then "*@" ++ base else "*@" ++ s1 ++ "." ++ base)
      ≠ (if s2 = "production" then "*@" ++ base else "*@" ++ s2 ++ "." ++ base) := by
  have hdot : ("." : String).length = 1 := rfl
  by_cases h1 : s1 = "production" <;> by_cases h2 : s2 = "production"
  · exact absurd (h1.trans h2.symm) h
  · simp only [if_pos h1, if_neg h2]
    intro he
    simp only [String.append_assoc] at he
    have h3 := strAppend_left_cancel he
    have hl := congrArg String.length h3
    simp only [String.length_append] at hl
    omega
  · simp only [if_neg h1, if_pos h2]
    intro he
    simp only [String.append_assoc] at he
    have h3 := (strAppend_left_cancel he).symm
    have hl := congrArg String.length h3
    simp only [String.length_append] at hl
    omega
  · simp only [if_neg h1, if_neg h2]
    intro he
    simp only [String.append_assoc] at he
    exact h (strAppend_right_cancel (strAppend_left_cancel he))

/-- Distinct stack names give distinct DKIM record names for the same token. -/
theorem dkimName_stack_ne (u base : String) {s1 s2 : String} (h : s1 ≠ s2) :
    u ++ "._domainkey." ++ s1 ++ "." ++ base
      ≠ u ++ "._domainkey." ++ s2 ++ "." ++ base := by
  simp only [String.append_assoc]
  exact strAppend_left_ne _ (strAppend_left_ne _ (strAppend_right_ne _ h))

/-- C6: the MAIL FROM domain is `bounce.` prepended to the resolved send
domain, and the component declares exactly one MX record — at exactly that
name, with value `10 feedback-smtp.<region>.amazonses.com`. -/
theorem c6_mail_from (name : String) (args : SesArgs) (stack vt : String)
    (toks : List String) :
    (Ses.construct name args stack vt toks).stackMailFrom.mailFromDomain
      = "bounce." ++ (if stack = "production" then args.baseDomain
                      else stack ++ "." ++ args.baseDomain)
    ∧ (Ses.construct name args stack vt toks).allRecords.filter
          (fun r => r.recordType == "MX")
        = [(Ses.construct name args stack vt toks).stackMailFromMXRecord]
    ∧ (Ses.construct name args stack vt toks).stackMailFromMXRecord.name
      = (Ses.construct name args stack vt toks).stackMailFrom.mailFromDomain
    ∧ (Ses.construct name args stack vt toks).stackMailFromMXRecord.records
      = ["10 feedback-smtp." ++ args.region ++ ".amazonses.com"] :=
  ⟨rfl, rfl, rfl, rfl⟩

/-- C7: the SPF record's name is the MAIL FROM domain, which is never the
primary send domain, and its value is the fixed string
`v=spf1 include:amazonses.com mail -all`, which contains the token `mail` and
the failing qualifier `-all`. -/
theorem c7_spf (name : String) (args : SesArgs) (stack vt : String)
    (toks : List String) :
    (Ses.construct name args stack vt toks).stackSPFMXRecord.name
      = (Ses.construct name args stack vt toks).stackMailFrom.mailFromDomain
    ∧ (Ses.construct name args stack vt toks).stackSPFMXRecord.name
      ≠ (Ses.construct name args stack vt toks).stackDomainIdentity.domain
    ∧ (Ses.construct name args stack vt toks).stackSPFMXRecord.records
      = ["v=spf1 include:amazonses.com mail -all"]
    ∧ "mail".data <:+: "v=spf1 include:amazonses.com mail -all".data
    ∧ "-all".data <:+: "v=spf1 include:amazonses.com mail -all".data := by
  refine ⟨rfl, ?_, rfl, by decide, by decide⟩
  show "bounce." ++ (if stack = "production" then args.baseDomain
        else stack ++ "." ++ args.baseDomain)
      ≠ (if stack = "production" then args.baseDomain
        else stack ++ "." ++ args.baseDomain)
  exact bounce_ne _

/-- C8: the DMARC record is declared at `_dmarc.<resolved send domain>` as a
TXT record whose value embeds the supplied administrative address verbatim
after `rua=mailto:` and enables all failure reporting with `fo=1`, for every
admin address. -/
theorem c8_dmarc (name : String) (args : SesArgs) (stack vt : String)
    (toks : List String) :
    (Ses.construct name args stack vt toks).dmarcRecord.name
      = "_dmarc." ++ (if stack = "production" then args.baseDomain
                      else stack ++ "." ++ args.baseDomain)
    ∧ (Ses.construct name args stack vt toks).dmarcRecord.recordType = "TXT"
    ∧ (Ses.construct name args stack vt toks).dmarcRecord.records
      = ["v=DMARC1; p=none; rua=mailto:" ++ args.adminEmailAddress ++ "; fo=1;"] :=
  ⟨rfl, rfl, rfl⟩

/-- C9: all seven DNS records declared by one component instance carry the
caller-supplied `dnsZoneId` as their zone; no other zone occurs. -/
theorem c9_zone (name : String) (args : SesArgs) (stack vt : String)
    (toks : List String) :
    (Ses.construct name args stack vt toks).allRecords.map (fun r => r.zoneId)
      = List.replicate 7 args.dnsZoneId := rfl

/-- C10: every environment-derived value is computed from the current stack
name, not from `SesArgs` — two constructions with the same `SesArgs` but
different stack names differ in resource prefix (visible in the user's
resource name), send domain, allowed-sender pattern, verification record
name, MAIL FROM domain, DMARC record name, and all three DKIM record names. -/
theorem c10_stack_dependence (name : String) (args : SesArgs) (s1 s2 vt : String)
    (toks : List String) (h : s1 ≠ s2) :
    (Ses.construct name args s1 vt toks).emailUser.urn
      ≠ (Ses.construct name args s2 vt toks).emailUser.urn
    ∧ (Ses.construct name args s1 vt toks).stackDomainIdentity.domain
      ≠ (Ses.construct name args s2 vt toks).stackDomainIdentity.domain
    ∧ (Ses.construct name args s1 vt toks).emailUserPolicy.policy.statement.map
          (fun st => st.conditionStringLikeSesFromAddress)
      ≠ (Ses.construct name args s2 vt toks).emailUserPolicy.policy.statement.map
          (fun st => st.conditionStringLikeSesFromAddress)
    ∧ (Ses.construct name args s1 vt toks).sesStackVerificationRecord.name
      ≠ (Ses.construct name args s2 vt toks).sesStackVerificationRecord.name
    ∧ (Ses.construct name args s1 vt toks).stackMailFrom.mailFromDomain
      ≠ (Ses.construct name args s2 vt toks).stackMailFrom.mailFromDomain
    ∧ (Ses.construct name args s1 vt toks).dmarcRecord.name
      ≠ (Ses.construct name args s2 vt toks).dmarcRecord.name
    ∧ List.Forall₂ (fun a b => a ≠ b)
        ((Ses.construct name args s1 vt toks).stackDKIMRecords.map (fun r => r.name))
        ((Ses.construct name args s2 vt toks).stackDKIMRecords.map (fun r => r.name)) := by
  refine ⟨?_, sendDomain_ne h, ?_, strAppend_left_ne _ h,
    strAppend_left_ne _ (sendDomain_ne h), strAppend_left_ne _ (sendDomain_ne h), ?_⟩
  · exact strAppend_right_ne _ (strAppend_left_ne _ h)
  · show [if s1 = "production" then "*@" ++ args.baseDomain
          else "*@" ++ s1 ++ "." ++ args.baseDomain]
        ≠ [if s2 = "production" then "*@" ++ args.baseDomain
          else "*@" ++ s2 ++ "." ++ args.baseDomain]
    exact fun he => allowedFrom_ne h (List.cons.inj he).1
  · exact .cons (dkimName_stack_ne _ _ h)
      (.cons (dkimName_stack_ne _ _ h) (.cons (dkimName_stack_ne _ _ h) .nil))

theorem c10_stack_dependence_witness :
    (Ses.construct "email" argsEx "production" "vtok" ["tokA", "tokB", "tokC"]).emailUser.urn
      ≠ (Ses.construct "email" argsEx "staging" "vtok" ["tokA", "tokB", "tokC"]).emailUser.urn
    ∧ (Ses.construct "email" argsEx "production" "vtok" ["tokA", "tokB", "tokC"]).stackDomainIdentity.domain
      ≠ (Ses.construct "email" argsEx "staging" "vtok" ["tokA", "tokB", "tokC"]).stackDomainIdentity.domain
    ∧ (Ses.construct "email" argsEx "production" "vtok" ["tokA", "tokB", "tokC"]).emailUserPolicy.policy.statement.map
          (fun st => st.conditionStringLikeSesFromAddress)
      ≠ (Ses.construct "email" argsEx "staging" "vtok" ["tokA", "tokB", "tokC"]).emailUserPolicy.policy.statement.map
          (fun st => st.conditionStringLikeSesFromAddress)
    ∧ (Ses.construct "email" argsEx "production" "vtok" ["tokA", "tokB", "tokC"]).sesStackVerificationRecord.name
      ≠ (Ses.construct "email" argsEx "staging" "vtok" ["tokA", "tokB", "tokC"]).sesStackVerificationRecord.name
    ∧ (Ses.construct "email" argsEx "production" "vtok" ["tokA", "tokB", "tokC"]).stackMailFrom.mailFromDomain
      ≠ (Ses.construct "email" argsEx "staging" "vtok" ["tokA", "tokB", "tokC"]).stackMailFrom.mailFromDomain
    ∧ (Ses.construct "email" argsEx "production" "vtok" ["tokA", "tokB", "tokC"]).dmarcRecord.name
      ≠ (Ses.construct "email" argsEx "staging" "vtok" ["tokA", "tokB", "tokC"]).dmarcRecord.name
    ∧ List.Forall₂ (fun a b => a ≠ b)
        ((Ses.construct "email" argsEx "production" "vtok" ["tokA", "tokB", "tokC"]).stackDKIMRecords.map
          (fun r => r.name))
        ((Ses.construct "email" argsEx "staging" "vtok" ["tokA", "tokB", "tokC"]).stackDKIMRecords.map
          (fun r => r.name)) :=
  c10_stack_dependence "email" argsEx "production" "staging" "vtok" ["tokA", "tokB", "tokC"]
    (by decide)

end PulumiAwsSes
